import Mathlib

set_option linter.unusedVariables false

set_option linter.unnecessarySeqFocus false

/-!
Shallow embedding of the placeholder-form pipeline of the legal-doc-automator
frontend (`src/frontend`), covering the batch-validation retry state machine of
`app/form/page.tsx`, the fill value map construction of the review page
(`handleDownload`), the upload gate of `components/UploadZone.tsx`, and the
progress bar guard. JavaScript numbers are modelled as exact rationals and
JavaScript objects as functional or association-list maps.
-/

namespace LegalDoc

/-- JavaScript `a || b` on an optional string: a missing or empty string is
falsy and falls back to the default (models `p.placeholder_id ||
p.placeholder_text`). -/
def jsOr (o : Option String) (d : String) : String :=
  match o with
  | some s => if s = "" then d else s
  | none => d

/-- One entry of the batch validation response (interface
`BatchValidationResult` in `src/frontend/app/form/page.tsx`); display-only
fields that the submission logic never reads (`what_expected`, `suggestion`,
`example`, `clarification_needed`) are omitted. -/
structure BatchValidationResult where
  field : String
  is_valid : Bool
  is_ambiguous : Bool
  formatted_value : String
  confidence : ℚ
  message : String
  what_was_entered : Option String
deriving DecidableEq

/-- Per-field UI validation state (interface `FieldState` in
`src/frontend/app/form/page.tsx`). -/
structure FieldState where
  validationResult : Option BatchValidationResult
  awaitingConfirmation : Bool
  retryCount : Nat
  lastErrorMessage : Option String
deriving DecidableEq

/-- Retry counter update of `handleValidateAndSubmit` (page.tsx lines
160-162): `isSameError ? (prevFieldState?.retryCount || 0) + 1 : 1` where
`isSameError = prevFieldState?.lastErrorMessage === result.message`. -/
def updatedRetryCount (prev : Option FieldState) (msg : String) : Nat :=
  if prev.bind (fun s => s.lastErrorMessage) = some msg then
    (prev.map (fun s => s.retryCount)).getD 0 + 1
  else 1

/-- Confirmation guard of page.tsx lines 179-181:
`!!(result.formatted_value && result.formatted_value !==
state.values[result.field] && result.confidence >= 0.6)`. -/
def shouldConfirm (stored : Option String) (r : BatchValidationResult) : Bool :=
  decide (r.formatted_value ≠ "") && decide (stored ≠ some r.formatted_value) &&
    decide ((6 : ℚ) / 10 ≤ r.confidence)

/-- One per-field evaluation of a batch result (body of the `results.forEach`
loop in `handleValidateAndSubmit`, page.tsx lines 153-198). `prior` is the
snapshot `formState.fieldStates[result.field]` and `stored` is
`state.values[result.field]`. -/
def stepField (prior : Option FieldState) (stored : Option String)
    (r : BatchValidationResult) : FieldState :=
  if r.is_valid then
    { validationResult := some r
      awaitingConfirmation := false
      retryCount := 0
      lastErrorMessage := none }
  else if 3 ≤ updatedRetryCount prior r.message then
    { validationResult := some { r with is_valid := true }
      awaitingConfirmation := false
      retryCount := updatedRetryCount prior r.message
      lastErrorMessage := some r.message }
  else
    { validationResult := some r
      awaitingConfirmation := shouldConfirm stored r
      retryCount := updatedRetryCount prior r.message
      lastErrorMessage := some r.message }

/-- Accumulated outcome of the `results.forEach` loop: the freshly built
`fieldStates` object (most recent assignment first) and the running
`hasIssues` flag. -/
structure BatchOutcome where
  fieldStates : List (String × FieldState)
  hasIssues : Bool
deriving DecidableEq

/-- One iteration of the `results.forEach` loop including the mutation of the
shared `hasIssues` variable: an invalid result sets it to `true`, but the
auto-accept branch then overwrites it with `false` (page.tsx line 176). -/
def processOne (prior : String → Option FieldState) (values : String → Option String)
    (acc : BatchOutcome) (r : BatchValidationResult) : BatchOutcome :=
  { fieldStates := (r.field, stepField (prior r.field) (values r.field) r) :: acc.fieldStates
    hasIssues :=
      if r.is_valid then acc.hasIssues
      else if 3 ≤ updatedRetryCount (prior r.field) r.message then false
      else true }

/-- Whole result-processing pass of `handleValidateAndSubmit` (page.tsx lines
149-206), starting from an empty `fieldStates` object and `hasIssues = false`. -/
def processResults (prior : String → Option FieldState) (values : String → Option String)
    (results : List BatchValidationResult) : BatchOutcome :=
  results.foldl (processOne prior values) { fieldStates := [], hasIssues := false }

/-- Functional update of the flat values record (`setValue` in
`FormContext.tsx`). -/
def setValue (values : String → Option String) (fieldId v : String) :
    String → Option String :=
  fun k => if k = fieldId then some v else values k

/-- Explicit accept of a proposed formatted value (`handleAcceptFormatted`,
page.tsx lines 75-92): when the stored validation result carries a truthy
formatted value, install it as the field value and clear the confirmation
flag. -/
def handleAcceptFormatted (values : String → Option String) (fieldId : String)
    (st : Option FieldState) : (String → Option String) × Option FieldState :=
  match st with
  | some s =>
    match s.validationResult with
    | some r =>
      if r.formatted_value ≠ "" then
        (setValue values fieldId r.formatted_value,
         some { validationResult := some r
                awaitingConfirmation := false
                retryCount := 0
                lastErrorMessage := none })
      else (values, st)
    | none => (values, st)
  | none => (values, st)

/-- Explicit reject (`handleRejectFormatted`, page.tsx lines 94-107): the
field state is cleared and the confirmation flag dropped. -/
def handleRejectFormatted : FieldState :=
  { validationResult := none
    awaitingConfirmation := false
    retryCount := 0
    lastErrorMessage := none }

/-- Post-success pass of page.tsx lines 209-214: when no issues remain, every
result whose `formatted_value` differs from the pre-submission snapshot
`state.values` has that formatted value installed via `setValue`; the
comparison always reads the snapshot `values`, never the accumulator. -/
def applyFormattedValues (values : String → Option String)
    (results : List BatchValidationResult) : String → Option String :=
  results.foldl
    (fun acc r =>
      if values r.field ≠ some r.formatted_value then setValue acc r.field r.formatted_value
      else acc)
    values

/-- Successive evaluations of one single field: each submission feeds the
state produced by the previous one back in as the prior snapshot. -/
def runField (stored : Option String) (results : List BatchValidationResult) :
    Option FieldState :=
  results.foldl (fun st r => some (stepField st stored r)) none

/-- A field state the engine forced to valid after repeated identical
rejections (the auto-accept branch, page.tsx lines 165-176): the retry count
reached 3 and the stored result is flagged valid. -/
def FieldState.autoAccepted (s : FieldState) : Prop :=
  3 ≤ s.retryCount ∧ ∃ r, s.validationResult = some r ∧ r.is_valid = true

/-- Placeholder metadata handed to the form (interface `PlaceholderAnalysis`
in `src/frontend/types/index.ts`); description fields the submission and
download logic never reads are omitted. -/
structure PlaceholderAnalysis where
  placeholder_text : String
  placeholder_name : String
  placeholder_id : Option String
  data_type : String
  required : Bool
deriving DecidableEq

/-- Field identifier used throughout the frontend:
`field.placeholder_id || field.placeholder_text`. -/
def fieldKey (p : PlaceholderAnalysis) : String :=
  jsOr p.placeholder_id p.placeholder_text

/-- First-match association lookup on a flat string map. -/
def lookupKey (m : List (String × String)) (k : String) : Option String :=
  match m with
  | [] => none
  | (k2, v) :: rest => if k2 = k then some v else lookupKey rest k

/-- Position-suffixed duplicate key built by `handleDownload`:
`${p.placeholder_text}__pos_${idx}` where `idx` is the index of the field in
the placeholder list. -/
def posKey (p : PlaceholderAnalysis) (idx : Nat) : String :=
  p.placeholder_text ++ "__pos_" ++ toString idx

/-- One iteration of the `state.placeholders.forEach` loop of
`handleDownload`: a placeholder whose stored value is truthy contributes its
raw text key and its position-suffixed key, both bound to the value. Later
assignments are consed in front so `lookupKey` sees the newest binding first,
matching JavaScript object overwrite semantics. -/
def vfbStep (values : String → Option String) (m : List (String × String))
    (ip : Nat × PlaceholderAnalysis) : List (String × String) :=
  match values (fieldKey ip.2) with
  | some v =>
    if v ≠ "" then (posKey ip.2 ip.1, v) :: (ip.2.placeholder_text, v) :: m else m
  | none => m

/-- Value map construction of `handleDownload` (review page, also
`src/unnamed/part_001` lines 36-47). -/
def valuesForBackend (ps : List PlaceholderAnalysis) (values : String → Option String) :
    List (String × String) :=
  ps.enum.foldl (vfbStep values) []

/-- Modelled from the spec: one physical occurrence as addressed by the
FillEngine (backend fill path, not present under `src/`), carrying its raw
placeholder text and the disambiguated position-suffixed key. -/
structure FillOccurrence where
  raw_text : String
  pos_key : String
deriving DecidableEq

/-- Modelled from the spec: the FillEngine resolves one occurrence by looking
up its disambiguated key and then its raw text in the flat value map; when
both are absent the original placeholder text is left untouched and the
occurrence is reported as a skipped warning (`none` means no warning). -/
def fillOne (m : List (String × String)) (o : FillOccurrence) : String × Option String :=
  match lookupKey m o.pos_key with
  | some v => (v, none)
  | none =>
    match lookupKey m o.raw_text with
    | some v => (v, none)
    | none => (o.raw_text, some o.raw_text)

/-- Modelled from the spec: the FillEngine maps every occurrence to its
replacement text and collects the skipped occurrences into a warning list; it
is total, so an unresolved placeholder is a warning, never an error. -/
def fillModel (m : List (String × String)) (occs : List FillOccurrence) :
    List String × List String :=
  (occs.map (fun o => (fillOne m o).1), occs.filterMap (fun o => (fillOne m o).2))

/-- Entered value of a placeholder as the download and submission code reads
it: the stored string, or the empty string when absent. -/
def enteredValue (values : String → Option String) (p : PlaceholderAnalysis) : String :=
  (values (fieldKey p)).getD ""

/-- JavaScript emptiness test `!state.values[key]?.trim()` of the required
check: missing value or whitespace-only value. -/
def valueEmpty (values : String → Option String) (p : PlaceholderAnalysis) : Bool :=
  match values (fieldKey p) with
  | none => true
  | some s => s.trim = ""

/-- Required-but-empty filter of `handleValidateAndSubmit` (page.tsx lines
111-113). -/
def missingRequired (ps : List PlaceholderAnalysis) (values : String → Option String) :
    List PlaceholderAnalysis :=
  ps.filter (fun p => p.required && valueEmpty values p)

/-- One element of the batch validation request (page.tsx lines 131-136). -/
structure ValidationRequest where
  field : String
  value : String
  type : String
  name : String
deriving DecidableEq

/-- Request list sent to `validateBatch` (page.tsx lines 125-136): a field is
included when it has a truthy trimmed value or is required. -/
def validationsToRun (ps : List PlaceholderAnalysis) (values : String → Option String) :
    List ValidationRequest :=
  (ps.filter (fun p => !(valueEmpty values p) || p.required)).map
    (fun p =>
      { field := fieldKey p
        value := (values (fieldKey p)).getD ""
        type := p.data_type
        name := p.placeholder_name })

/-- Outcome of the synchronous front part of `handleValidateAndSubmit`: the
`hasIssues` flag it sets and the batch request it issues (`none` when the
submission is blocked before any request). -/
structure SubmitOutcome where
  hasIssues : Bool
  batchRequest : Option (List ValidationRequest)
deriving DecidableEq

/-- Early-return guard of `handleValidateAndSubmit` (page.tsx lines 110-121):
when some required field is empty the flag is set and the function returns
before issuing the batch request, touching field states, stored values or
navigation; otherwise the request list is built and sent. -/
def submitPrecheck (ps : List PlaceholderAnalysis) (values : String → Option String) :
    SubmitOutcome :=
  if missingRequired ps values ≠ [] then { hasIssues := true, batchRequest := none }
  else { hasIssues := false, batchRequest := some (validationsToRun ps values) }

/-- File facts the upload gate reads (`File` name and byte size). -/
structure UploadFile where
  name : String
  size : Nat
deriving DecidableEq

/-- Upload gate `validateFile` of `components/UploadZone.tsx` lines 25-35:
reject unless the name ends in `.docx` and the size is at most 50 MiB. -/
def validateFile (f : UploadFile) : Bool :=
  if !(f.name.endsWith ".docx") then false
  else if 50 * 1024 * 1024 < f.size then false
  else true

/-- Drop and browse handlers of `UploadZone.tsx` (lines 37-61): the first file
of a non-empty selection is handed to `onFileSelect` exactly when
`validateFile` passes; `some f` models the invocation `onFileSelect(f)`. -/
def handleDrop (files : List UploadFile) : Option UploadFile :=
  match files with
  | [] => none
  | f :: _ => if validateFile f then some f else none

/-- Percentage computed by the `ProgressBar` component
(`src/unnamed/part_006` line 55): `total > 0 ? Math.round((current / total) *
100) : 0`, with JavaScript arithmetic idealised over the rationals. -/
def progressPercentage (current total : Nat) : ℤ :=
  if 0 < total then round ((current : ℚ) / (total : ℚ) * 100) else 0

/-- Shape of `stepField` on an invalid result: whatever branch is taken, the
retry counter becomes `updatedRetryCount`, the message is recorded, and once
the counter reaches 3 the stored result is forced valid. -/
theorem stepField_invalid (prior : Option FieldState) (stored : Option String)
    (r : BatchValidationResult) (hr : r.is_valid = false) :
    (stepField prior stored r).retryCount = updatedRetryCount prior r.message ∧
    (stepField prior stored r).lastErrorMessage = some r.message ∧
    (3 ≤ updatedRetryCount prior r.message →
      (stepField prior stored r).validationResult = some { r with is_valid := true }) := by
  by_cases h3 : 3 ≤ updatedRetryCount prior r.message <;>
    simp [stepField, hr, h3]

/-- Invariant carried along a streak of identical rejections: either the field
was never evaluated, or its recorded message is the streak message, its retry
counter equals the streak length, and from length 3 on the stored result has
been forced valid. -/
def streakInv (m : String) (k : Nat) (st : Option FieldState) : Prop :=
  (st = none ∧ k = 0) ∨
  (∃ s, st = some s ∧ s.lastErrorMessage = some m ∧ s.retryCount = k ∧
    (3 ≤ k → ∃ r2, s.validationResult = some r2 ∧ r2.is_valid = true))

/-- One invalid evaluation with the streak message extends the streak
invariant by one. -/
theorem streakInv_step (stored : Option String) (m : String) (r : BatchValidationResult)
    (hr : r.is_valid = false) (hm : r.message = m) (k : Nat) (st : Option FieldState)
    (h : streakInv m k st) : streakInv m (k + 1) (some (stepField st stored r)) := by
  obtain ⟨hcnt, hmsg, hacc⟩ := stepField_invalid st stored r hr
  rcases h with ⟨hst, hk⟩ | ⟨s, hst, hsm, hsk, _⟩
  · subst hst; subst hk
    have hone : updatedRetryCount none r.message = 1 := by simp [updatedRetryCount]
    refine Or.inr ⟨stepField none stored r, rfl, hm ▸ hmsg, ?_, ?_⟩
    · rw [hcnt, hone]
    · intro h3; omega
  · subst hst
    have hsame : updatedRetryCount (some s) r.message = k + 1 := by
      simp [updatedRetryCount, hsm, hm, hsk]
    refine Or.inr ⟨stepField (some s) stored r, rfl, hm ▸ hmsg, by rw [hcnt, hsame], ?_⟩
    intro h3
    refine ⟨{ r with is_valid := true }, ?_, rfl⟩
    exact hacc (by rw [hsame]; exact h3)

/-- Folding a whole streak of invalid evaluations with a common message over
`stepField` preserves the streak invariant, step by step. -/
theorem streakInv_foldl (stored : Option String) (m : String)
    (results : List BatchValidationResult)
    (hall : ∀ r ∈ results, r.is_valid = false ∧ r.message = m) :
    ∀ (st : Option FieldState) (k : Nat), streakInv m k st →
      streakInv m (k + results.length)
        (results.foldl (fun st r => some (stepField st stored r)) st) := by
  induction results with
  | nil => intro st k h; simpa using h
  | cons r rest ih =>
    intro st k h
    have hr := hall r (List.mem_cons_self r rest)
    have h1 := streakInv_step stored m r hr.1 hr.2 k st h
    have h2 := ih (fun x hx => hall x (List.mem_cons_of_mem r hx)) _ (k + 1) h1
    have e : k + (r :: rest).length = (k + 1) + rest.length := by
      simp [List.length_cons]; omega
    rw [List.foldl_cons, e]
    exact h2

/-- C1: once a field accumulates 3 consecutive rejections with an identical
rejection message, the engine treats the result as valid (auto-accept)
regardless of the validity of the submission: for any run of `n ≥ 3`
evaluations of one field that all come back invalid with the same message,
the resulting state is auto-accepted with retry count `n`. In particular the
field resolves at the 3rd round of identical failure, and the 4th evaluation
(still invalid with the same message) is auto-accepted as well. -/
theorem c1_auto_accept_after_three_identical_rejections
    (stored : Option String) (m : String) (results : List BatchValidationResult)
    (hall : ∀ r ∈ results, r.is_valid = false ∧ r.message = m)
    (hlen : 3 ≤ results.length) :
    ∃ s, runField stored results = some s ∧ s.autoAccepted ∧
      s.retryCount = results.length := by
  have h := streakInv_foldl stored m results hall none 0 (Or.inl ⟨rfl, rfl⟩)
  rw [Nat.zero_add] at h
  rcases h with ⟨_, hk⟩ | ⟨s, hst, _, hK, hacc⟩
  · omega
  · refine ⟨s, hst, ⟨?_, ?_⟩, hK⟩
    · omega
    · exact hacc (by omega)

/-- Concrete instance of C1: four identical invalid evaluations of an email
field end auto-accepted with retry count 4. -/
def c1res : BatchValidationResult :=
  { field := "email"
    is_valid := false
    is_ambiguous := false
    formatted_value := ""
    confidence := 0
    message := "invalid email format"
    what_was_entered := some "not-an-email" }

/-- Witness for C1 at a concrete streak of four identical rejections. -/
theorem c1_witness :
    ∃ s, runField none [c1res, c1res, c1res, c1res] = some s ∧ s.autoAccepted ∧
      s.retryCount = [c1res, c1res, c1res, c1res].length :=
  c1_auto_accept_after_three_identical_rejections none "invalid email format"
    [c1res, c1res, c1res, c1res] (by decide) (by decide)

/-- C4: on a field with a prior rejection, a rejection with a different
message sets the consecutive-failure counter to exactly 1 (not 0), while a
rejection repeating the previous message increments it by 1. -/
theorem c4_retry_counter_reset_and_increment
    (prior : FieldState) (stored : Option String) (r : BatchValidationResult) (m : String)
    (hinv : r.is_valid = false) (hprev : prior.lastErrorMessage = some m) :
    (r.message ≠ m → (stepField (some prior) stored r).retryCount = 1) ∧
    (r.message = m → (stepField (some prior) stored r).retryCount = prior.retryCount + 1) := by
  have h := stepField_invalid (some prior) stored r hinv
  constructor
  · intro hne
    have hc : updatedRetryCount (some prior) r.message = 1 := by
      simp only [updatedRetryCount, Option.some_bind, hprev]
      rw [if_neg]
      intro he
      exact hne (Option.some.inj he).symm
    rw [h.1, hc]
  · intro he
    have hc : updatedRetryCount (some prior) r.message = prior.retryCount + 1 := by
      simp [updatedRetryCount, hprev, he]
    rw [h.1, hc]

/-- Concrete prior state for the C4 witness: one earlier rejection with
message `"too short"`. -/
def c4prior : FieldState :=
  { validationResult := none
    awaitingConfirmation := false
    retryCount := 1
    lastErrorMessage := some "too short" }

/-- Concrete rejection with a fresh message for the C4 witness. -/
def c4res : BatchValidationResult :=
  { field := "name"
    is_valid := false
    is_ambiguous := false
    formatted_value := ""
    confidence := 0
    message := "contains digits"
    what_was_entered := some "A1" }

/-- Witness for C4: a different rejection message resets the counter to 1. -/
theorem c4_witness :
    (stepField (some c4prior) none c4res).retryCount = 1 :=
  (c4_retry_counter_reset_and_increment c4prior none c4res "too short"
    (by decide) (by decide)).1 (by decide)

/-- C3: when a submission is evaluated invalid with fewer than 3 identical
rejections so far, and the result carries a non-empty formatted alternative
differing from the stored entered value with confidence at least 6/10, the
field enters the awaiting-confirmation state whose stored result exposes both
the raw entered value and the formatted value; an explicit accept installs
the formatted value and clears the flag, an explicit reject clears the flag
and the result. -/
theorem c3_awaiting_confirmation_requires_explicit_resolution
    (prior : Option FieldState) (stored : Option String)
    (values : String → Option String) (fid : String) (r : BatchValidationResult)
    (hinv : r.is_valid = false)
    (hcnt : updatedRetryCount prior r.message < 3)
    (hfmt : r.formatted_value ≠ "")
    (hdiff : stored ≠ some r.formatted_value)
    (hconf : (6 : ℚ) / 10 ≤ r.confidence) :
    (stepField prior stored r).awaitingConfirmation = true ∧
    (stepField prior stored r).validationResult = some r ∧
    (handleAcceptFormatted values fid (some (stepField prior stored r))).1 fid
      = some r.formatted_value ∧
    (handleAcceptFormatted values fid (some (stepField prior stored r))).2
      = some { validationResult := some r, awaitingConfirmation := false,
               retryCount := 0, lastErrorMessage := none } ∧
    handleRejectFormatted.awaitingConfirmation = false := by
  have h3 : ¬ 3 ≤ updatedRetryCount prior r.message := by omega
  have hstep : stepField prior stored r =
      { validationResult := some r
        awaitingConfirmation := shouldConfirm stored r
        retryCount := updatedRetryCount prior r.message
        lastErrorMessage := some r.message } := by
    simp [stepField, hinv, h3]
  have hsc : shouldConfirm stored r = true := by
    simp [shouldConfirm, hfmt, hdiff, hconf]
  rw [hstep]
  refine ⟨hsc, rfl, ?_, ?_, rfl⟩
  · simp [handleAcceptFormatted, hfmt, setValue]
  · simp [handleAcceptFormatted, hfmt]

/-- Concrete invalid currency result for the C3 witness. -/
def c3res : BatchValidationResult :=
  { field := "amount"
    is_valid := false
    is_ambiguous := true
    formatted_value := "$5,000.00"
    confidence := 9 / 10
    message := "needs currency formatting"
    what_was_entered := some "5000" }

/-- Stored values for the C3 witness. -/
def c3values : String → Option String :=
  fun k => if k = "amount" then some "5000" else none

/-- Witness for C3 at a first-time invalid currency submission. -/
theorem c3_witness :
    (stepField none (some "5000") c3res).awaitingConfirmation = true ∧
    (stepField none (some "5000") c3res).validationResult = some c3res ∧
    (handleAcceptFormatted c3values "amount" (some (stepField none (some "5000") c3res))).1
      "amount" = some c3res.formatted_value ∧
    (handleAcceptFormatted c3values "amount" (some (stepField none (some "5000") c3res))).2
      = some { validationResult := some c3res, awaitingConfirmation := false,
               retryCount := 0, lastErrorMessage := none } ∧
    handleRejectFormatted.awaitingConfirmation = false :=
  c3_awaiting_confirmation_requires_explicit_resolution none (some "5000") c3values
    "amount" c3res (by decide) (by decide) (by decide) (by decide) (by norm_num [c3res])

/-- Prior field states for the C5 failing input: field `"b"` already saw the
message `"bad date"` twice, field `"a"` is fresh. -/
def c5prior : String → Option FieldState :=
  fun f =>
    if f = "b" then
      some { validationResult := none
             awaitingConfirmation := false
             retryCount := 2
             lastErrorMessage := some "bad date" }
    else none

/-- Stored values for the C5 failing input. -/
def c5values : String → Option String :=
  fun f => if f = "a" then some "x" else if f = "b" then some "13/45/99" else none

/-- Fresh invalid result for field `"a"` in the C5 failing input. -/
def c5ra : BatchValidationResult :=
  { field := "a"
    is_valid := false
    is_ambiguous := false
    formatted_value := ""
    confidence := 0
    message := "invalid email format"
    what_was_entered := some "x" }

/-- Third identical invalid result for field `"b"` in the C5 failing input:
its processing takes the auto-accept branch. -/
def c5rb : BatchValidationResult :=
  { field := "b"
    is_valid := false
    is_ambiguous := false
    formatted_value := ""
    confidence := 0
    message := "bad date"
    what_was_entered := some "13/45/99" }

/-- C5 fails on the code: processing the same two results in the two orders
gives different overall outcomes, because the auto-accept branch overwrites
the shared `hasIssues` flag with `false` (page.tsx line 176), erasing the
issue already recorded for the other field. With the auto-accepted field
last the form proceeds to review despite field `"a"` being invalid; with it
first the submission is flagged. -/
theorem c5_order_dependent_outcome :
    (processResults c5prior c5values [c5ra, c5rb]).hasIssues = false ∧
    (processResults c5prior c5values [c5rb, c5ra]).hasIssues = true := by decide

/-- Results whose field differs from `k` never touch the value stored at `k`
in the formatted-value installation fold. -/
theorem foldl_setValue_skip (values acc : String → Option String)
    (l : List BatchValidationResult) (k : String)
    (h : ∀ x ∈ l, x.field ≠ k) :
    l.foldl
      (fun a x =>
        if values x.field ≠ some x.formatted_value then setValue a x.field x.formatted_value
        else a)
      acc k = acc k := by
  induction l generalizing acc with
  | nil => rfl
  | cons x rest ih =>
    have hx := h x (List.mem_cons_self x rest)
    rw [List.foldl_cons, ih _ (fun y hy => h y (List.mem_cons_of_mem x hy))]
    have hk : ¬ (k = x.field) := fun he => hx he.symm
    by_cases hc : values x.field ≠ some x.formatted_value
    · simp [hc, setValue, hk]
    · simp [hc]

/-- After the formatted-value installation fold over a batch of pairwise
distinct fields, a member whose formatted value differs from its snapshot
value ends up bound to the formatted value. -/
theorem foldl_setValue_mem (values acc : String → Option String)
    (l : List BatchValidationResult) (r : BatchValidationResult)
    (hmem : r ∈ l) (hnodup : l.Pairwise (fun a b => a.field ≠ b.field))
    (hdiff : values r.field ≠ some r.formatted_value) :
    l.foldl
      (fun a x =>
        if values x.field ≠ some x.formatted_value then setValue a x.field x.formatted_value
        else a)
      acc r.field = some r.formatted_value := by
  induction l generalizing acc with
  | nil => cases hmem
  | cons x rest ih =>
    rw [List.foldl_cons]
    rcases List.mem_cons.mp hmem with he | hm
    · subst he
      have hrest : ∀ y ∈ rest, y.field ≠ r.field := by
        intro y hy
        exact fun he2 => (List.pairwise_cons.mp hnodup).1 y hy he2.symm
      rw [foldl_setValue_skip values _ rest r.field hrest]
      simp [hdiff, setValue]
    · exact ih _ hm (List.pairwise_cons.mp hnodup).2

/-- C6: on an all-valid batch (no issues flagged), the caller installs the
formatted value of every result — in particular of every valid result whose
formatted value differs from the entered value — into the stored values,
provided the batch addresses pairwise distinct fields. Validation itself is
modelled as the pure `processResults`, which returns only the new attempt
states and touches no stored value. -/
theorem c6_formatted_value_installed_on_success
    (values : String → Option String) (prior : String → Option FieldState)
    (results : List BatchValidationResult) (r : BatchValidationResult)
    (hclean : (processResults prior values results).hasIssues = false)
    (hvalid : r.is_valid = true)
    (hmem : r ∈ results)
    (hnodup : results.Pairwise (fun a b => a.field ≠ b.field))
    (hdiff : values r.field ≠ some r.formatted_value) :
    applyFormattedValues values results r.field = some r.formatted_value := by
  unfold applyFormattedValues
  exact foldl_setValue_mem values values results r hmem hnodup hdiff

/-- Concrete valid result for the C6 witness: entered `"5000"`, formatted
`"$5,000.00"`. -/
def c6res : BatchValidationResult :=
  { field := "amount"
    is_valid := true
    is_ambiguous := false
    formatted_value := "$5,000.00"
    confidence := 1
    message := "Valid"
    what_was_entered := some "5000" }

/-- Stored values for the C6 witness. -/
def c6values : String → Option String :=
  fun k => if k = "amount" then some "5000" else none

/-- Witness for C6: a clean single-result batch installs the formatted
value. -/
theorem c6_witness :
    applyFormattedValues c6values [c6res] c6res.field = some c6res.formatted_value :=
  c6_formatted_value_installed_on_success c6values (fun _ => none) [c6res] c6res
    (by decide) (by decide) (List.mem_cons_self c6res [])
    (List.pairwise_singleton _ c6res) (by decide)

/-- A placeholder with no truthy stored value contributes nothing to the
value map. -/
theorem vfbStep_not_filled (values : String → Option String)
    (m : List (String × String)) (ip : Nat × PlaceholderAnalysis)
    (h : enteredValue values ip.2 = "") : vfbStep values m ip = m := by
  unfold enteredValue at h
  cases hv : values (fieldKey ip.2) with
  | none => simp [vfbStep, hv]
  | some v =>
    rw [hv] at h
    simp only [Option.getD_some] at h
    simp [vfbStep, hv, h]

/-- A placeholder with a truthy stored value contributes exactly its
position-suffixed key and its raw text key, both bound to that value. -/
theorem vfbStep_filled (values : String → Option String)
    (m : List (String × String)) (ip : Nat × PlaceholderAnalysis)
    (h : enteredValue values ip.2 ≠ "") :
    vfbStep values m ip =
      (posKey ip.2 ip.1, enteredValue values ip.2) ::
        (ip.2.placeholder_text, enteredValue values ip.2) :: m := by
  unfold enteredValue at *
  cases hv : values (fieldKey ip.2) with
  | none => rw [hv] at h; simp at h
  | some v =>
    rw [hv] at h
    simp only [Option.getD_some] at h
    simp [vfbStep, hv, h]

/-- Every key of the folded value map either came from the initial map or was
generated by some truthy-valued placeholder of the list, as its raw text or
its position-suffixed key. -/
theorem mem_keys_foldl_vfb (values : String → Option String)
    (l : List (Nat × PlaceholderAnalysis)) (m0 : List (String × String)) (k : String)
    (hk : k ∈ (l.foldl (vfbStep values) m0).map Prod.fst) :
    k ∈ m0.map Prod.fst ∨
      ∃ ip ∈ l, enteredValue values ip.2 ≠ "" ∧
        (k = ip.2.placeholder_text ∨ k = posKey ip.2 ip.1) := by
  induction l generalizing m0 with
  | nil => exact Or.inl hk
  | cons ip rest ih =>
    rw [List.foldl_cons] at hk
    rcases ih _ hk with hin | ⟨jq, hjq, hf, hsh⟩
    · by_cases hfill : enteredValue values ip.2 = ""
      · rw [vfbStep_not_filled values m0 ip hfill] at hin
        exact Or.inl hin
      · rw [vfbStep_filled values m0 ip hfill] at hin
        simp only [List.map_cons, List.mem_cons] at hin
        rcases hin with h1 | h2 | h3
        · exact Or.inr ⟨ip, List.mem_cons_self ip rest, hfill, Or.inr h1⟩
        · exact Or.inr ⟨ip, List.mem_cons_self ip rest, hfill, Or.inl h2⟩
        · exact Or.inl h3
    · exact Or.inr ⟨jq, List.mem_cons_of_mem ip hjq, hf, hsh⟩

/-- Every key `handleDownload` sends to the backend comes from a placeholder
with a truthy value, as its raw text or as its position-suffixed key. -/
theorem valuesForBackend_keys (ps : List PlaceholderAnalysis)
    (values : String → Option String) (k : String)
    (hk : k ∈ (valuesForBackend ps values).map Prod.fst) :
    ∃ ip ∈ ps.enum, enteredValue values ip.2 ≠ "" ∧
      (k = ip.2.placeholder_text ∨ k = posKey ip.2 ip.1) := by
  rcases mem_keys_foldl_vfb values ps.enum [] k hk with h | h
  · simp at h
  · exact h

/-- Placeholder list of the C2 counterexample: two fields sharing the raw
text `"___"` with backend-assigned identifiers. -/
def c2ps : List PlaceholderAnalysis :=
  [{ placeholder_text := "___"
     placeholder_name := "Tenant"
     placeholder_id := some "___#0"
     data_type := "string"
     required := true },
   { placeholder_text := "___"
     placeholder_name := "Landlord"
     placeholder_id := some "___#1"
     data_type := "string"
     required := true }]

/-- Stored values of the C2 counterexample. -/
def c2values : String → Option String :=
  fun k => if k = "___#0" then some "Alice" else if k = "___#1" then some "Bob" else none

/-- C2 counterexample: the value map built by `handleDownload` contains the
key `"___" ++ "__pos_0"`, which is neither the raw placeholder text `"___"`
nor a raw-text key with a `"#<position_index>"` suffix (`"___#0"` or
`"___#1"`), refuting the claimed key shapes. -/
theorem c2_counterexample :
    ("___" ++ "__pos_0") ∈ (valuesForBackend c2ps c2values).map Prod.fst ∧
    ("___" ++ "__pos_0") ≠ "___" ∧
    ("___" ++ "__pos_0") ≠ "___" ++ "#0" ∧
    ("___" ++ "__pos_0") ≠ "___" ++ "#1" := by decide

/-- C2 amended: every key of the value map passed to the fill operation is
either the raw placeholder text of a truthy-valued field or that raw text
followed by the suffix `"__pos_<idx>"`, where `idx` is the index of the field in
the placeholder list; and the fill operation (modelled from the spec, the
backend FillEngine is not under `src/`) accepts both key shapes, preferring
the position-suffixed one. -/
theorem c2_amended_key_shapes (ps : List PlaceholderAnalysis)
    (values : String → Option String) (k : String)
    (hk : k ∈ (valuesForBackend ps values).map Prod.fst) :
    (∃ ip ∈ ps.enum, enteredValue values ip.2 ≠ "" ∧
      (k = ip.2.placeholder_text ∨ k = posKey ip.2 ip.1)) ∧
    (∀ (m : List (String × String)) (o : FillOccurrence) (v : String),
      (lookupKey m o.pos_key = some v → fillOne m o = (v, none)) ∧
      (lookupKey m o.pos_key = none → lookupKey m o.raw_text = some v →
        fillOne m o = (v, none))) := by
  refine ⟨valuesForBackend_keys ps values k hk, ?_⟩
  intro m o v
  constructor
  · intro h
    simp [fillOne, h]
  · intro h1 h2
    simp [fillOne, h1, h2]

/-- Witness for the amended C2 at the concrete duplicate-placeholder input. -/
theorem c2_amended_witness :
    (∃ ip ∈ c2ps.enum, enteredValue c2values ip.2 ≠ "" ∧
      ("___" ++ "__pos_0" = ip.2.placeholder_text ∨
        "___" ++ "__pos_0" = posKey ip.2 ip.1)) ∧
    (∀ (m : List (String × String)) (o : FillOccurrence) (v : String),
      (lookupKey m o.pos_key = some v → fillOne m o = (v, none)) ∧
      (lookupKey m o.pos_key = none → lookupKey m o.raw_text = some v →
        fillOne m o = (v, none))) :=
  c2_amended_key_shapes c2ps c2values ("___" ++ "__pos_0") (by decide)

/-- A key absent from the key set of a flat map has no binding. -/
theorem lookupKey_eq_none (m : List (String × String)) (k : String)
    (h : k ∉ m.map Prod.fst) : lookupKey m k = none := by
  induction m with
  | nil => rfl
  | cons kv rest ih =>
    obtain ⟨k2, v⟩ := kv
    have hne : ¬ (k2 = k) := by
      intro he
      exact h (by simp [he])
    simp only [lookupKey, if_neg hne]
    exact ih (fun hm => h (by simp [hm]))

/-- Second components of an indexed enumeration are members of the list. -/
theorem snd_mem_of_mem_enumFrom {α : Type} (x : Nat × α) :
    ∀ (l : List α) (n : Nat), x ∈ List.enumFrom n l → x.2 ∈ l
  | [], _, hx => by cases hx
  | a :: rest, n, hx => by
    rcases List.mem_cons.mp hx with he | hm
    · rw [he]
      exact List.mem_cons_self a rest
    · exact List.mem_cons_of_mem a (snd_mem_of_mem_enumFrom x rest (n + 1) hm)

/-- Second components of `List.enum` entries are members of the list. -/
theorem snd_mem_of_mem_enum {α : Type} (x : Nat × α) (l : List α)
    (hx : x ∈ l.enum) : x.2 ∈ l :=
  snd_mem_of_mem_enumFrom x l 0 hx

/-- Filled duplicate placeholder for the C7 counterexample. -/
def c7dupFilled : PlaceholderAnalysis :=
  { placeholder_text := "___"
    placeholder_name := "Tenant"
    placeholder_id := some "___#0"
    data_type := "string"
    required := true }

/-- Unfilled duplicate placeholder for the C7 counterexample: it shares the
raw text `"___"` with the filled sibling but has no stored value. -/
def c7dupEmpty : PlaceholderAnalysis :=
  { placeholder_text := "___"
    placeholder_name := "Landlord"
    placeholder_id := some "___#1"
    data_type := "string"
    required := true }

/-- Placeholder list for the C7 counterexample. -/
def c7dupPs : List PlaceholderAnalysis := [c7dupFilled, c7dupEmpty]

/-- Stored values for the C7 counterexample: only the Tenant field is
filled. -/
def c7dupValues : String → Option String :=
  fun k => if k = "___#0" then some "Alice" else none

/-- C7 fails as stated on the duplicate-raw-text case: the Landlord
placeholder has no submitted value, yet the value map built by
`handleDownload` contains its raw text `"___"` as a key (emitted
unconditionally for the filled Tenant sibling), and the fill of the Landlord
occurrence replaces the placeholder text with `"Alice"` and reports no
warning, instead of leaving it verbatim with a warning. -/
theorem c7_counterexample :
    enteredValue c7dupValues c7dupEmpty = "" ∧
    lookupKey (valuesForBackend c7dupPs c7dupValues) c7dupEmpty.placeholder_text
      = some "Alice" ∧
    fillOne (valuesForBackend c7dupPs c7dupValues)
      { raw_text := c7dupEmpty.placeholder_text, pos_key := posKey c7dupEmpty 1 }
      = ("Alice", none) := by decide

/-- C7 amended: a placeholder with no truthy submitted value at fill time —
whose raw text is shared by no truthy-valued placeholder, and whose two key
shapes collide with no key generated for a truthy-valued placeholder — has no
entry in the value map sent to the fill operation; the (spec-modelled) fill
leaves the original placeholder text of its occurrence untouched and reports
it in the warning list of the total `fillModel`, not as an error. The
same-raw-text restriction is forced by `c7_counterexample`: a filled sibling
contributes the shared raw-text key, which silently fills the unfilled
occurrence. -/
theorem c7_unresolved_placeholder_left_verbatim
    (ps : List PlaceholderAnalysis) (values : String → Option String)
    (p : PlaceholderAnalysis) (idx : Nat)
    (hempty : ∀ q ∈ ps, q.placeholder_text = p.placeholder_text →
      enteredValue values q = "")
    (hnocol : ∀ jq ∈ ps.enum, enteredValue values jq.2 ≠ "" →
      posKey jq.2 jq.1 ≠ p.placeholder_text ∧
      posKey jq.2 jq.1 ≠ posKey p idx ∧
      jq.2.placeholder_text ≠ posKey p idx) :
    lookupKey (valuesForBackend ps values) p.placeholder_text = none ∧
    lookupKey (valuesForBackend ps values) (posKey p idx) = none ∧
    fillOne (valuesForBackend ps values)
      { raw_text := p.placeholder_text, pos_key := posKey p idx }
      = (p.placeholder_text, some p.placeholder_text) := by
  have hraw : p.placeholder_text ∉ (valuesForBackend ps values).map Prod.fst := by
    intro hk
    rcases valuesForBackend_keys ps values _ hk with ⟨jq, hjq, hf, h1 | h2⟩
    · exact hf (hempty jq.2 (snd_mem_of_mem_enum jq ps hjq) h1.symm)
    · exact (hnocol jq hjq hf).1 h2.symm
  have hpos : posKey p idx ∉ (valuesForBackend ps values).map Prod.fst := by
    intro hk
    rcases valuesForBackend_keys ps values _ hk with ⟨jq, hjq, hf, h1 | h2⟩
    · exact (hnocol jq hjq hf).2.2 h1.symm
    · exact (hnocol jq hjq hf).2.1 h2.symm
  have l1 := lookupKey_eq_none _ _ hraw
  have l2 := lookupKey_eq_none _ _ hpos
  exact ⟨l1, l2, by simp [fillOne, l1, l2]⟩

/-- Unfilled name placeholder for the C7 witness. -/
def c7name : PlaceholderAnalysis :=
  { placeholder_text := "[Name]"
    placeholder_name := "Name"
    placeholder_id := none
    data_type := "string"
    required := false }

/-- Filled date placeholder for the C7 witness. -/
def c7date : PlaceholderAnalysis :=
  { placeholder_text := "[Date]"
    placeholder_name := "Date"
    placeholder_id := none
    data_type := "date"
    required := false }

/-- Placeholder list for the C7 witness. -/
def c7ps : List PlaceholderAnalysis := [c7name, c7date]

/-- Stored values for the C7 witness: only the date field is filled. -/
def c7values : String → Option String :=
  fun k => if k = "[Date]" then some "2024-01-01" else none

/-- Witness for C7: the unfilled `"[Name]"` placeholder has no entry in the
value map and is left verbatim with a warning. -/
theorem c7_witness :
    lookupKey (valuesForBackend c7ps c7values) c7name.placeholder_text = none ∧
    lookupKey (valuesForBackend c7ps c7values) (posKey c7name 0) = none ∧
    fillOne (valuesForBackend c7ps c7values)
      { raw_text := c7name.placeholder_text, pos_key := posKey c7name 0 }
      = (c7name.placeholder_text, some c7name.placeholder_text) :=
  c7_unresolved_placeholder_left_verbatim c7ps c7values c7name 0 (by decide) (by decide)

/-- C8: when some required field has an empty or whitespace-only stored
value, the submission is blocked in the synchronous guard: the issues flag is
set and no batch validation request is issued, so no field state, stored
value or navigation can change. -/
theorem c8_required_empty_blocks_submission
    (ps : List PlaceholderAnalysis) (values : String → Option String)
    (p : PlaceholderAnalysis) (hp : p ∈ ps)
    (hreq : p.required = true) (hempty : valueEmpty values p = true) :
    submitPrecheck ps values = { hasIssues := true, batchRequest := none } := by
  have hmem : p ∈ missingRequired ps values := by
    rw [missingRequired, List.mem_filter]
    exact ⟨hp, by simp [hreq, hempty]⟩
  have hne : missingRequired ps values ≠ [] := by
    intro h
    rw [h] at hmem
    cases hmem
  simp [submitPrecheck, hne]

/-- Required tenant placeholder for the C8 witness. -/
def c8p : PlaceholderAnalysis :=
  { placeholder_text := "[Tenant]"
    placeholder_name := "Tenant"
    placeholder_id := none
    data_type := "string"
    required := true }

/-- Witness for C8: a missing value on a required field blocks the
submission. -/
theorem c8_witness :
    submitPrecheck [c8p] (fun _ => none) = { hasIssues := true, batchRequest := none } :=
  c8_required_empty_blocks_submission [c8p] (fun _ => none) c8p
    (List.mem_cons_self c8p []) (by decide) (by decide)

/-- C9: a dropped or selected file is handed to `onFileSelect` exactly when
its name ends with `.docx` and its size is at most `50 * 1024 * 1024` bytes;
any other file is rejected by the shared `validateFile` gate (the browse
handler `handleChange` runs the identical check). -/
theorem c9_upload_gate (f : UploadFile) :
    handleDrop [f] = some f ↔
      (f.name.endsWith ".docx" = true ∧ f.size ≤ 50 * 1024 * 1024) := by
  by_cases h1 : f.name.endsWith ".docx" = true <;>
    by_cases h2 : 50 * 1024 * 1024 < f.size <;>
      simp [handleDrop, validateFile, h1, h2] <;> omega

/-- Witness for C9 at a concrete well-formed upload. -/
theorem c9_witness :
    handleDrop [{ name := "contract.docx", size := 1000 }]
        = some { name := "contract.docx", size := 1000 } ↔
      (String.endsWith "contract.docx" ".docx" = true ∧ 1000 ≤ 50 * 1024 * 1024) :=
  c9_upload_gate { name := "contract.docx", size := 1000 }

/-- C10: the progress percentage is total-guarded: a zero total yields 0 with
no division, and a positive total yields the rounded ratio percentage. -/
theorem c10_progress_percentage_guarded (current total : Nat) (h : 0 < total) :
    progressPercentage current total = round ((current : ℚ) / (total : ℚ) * 100) ∧
    progressPercentage current 0 = 0 := by
  constructor
  · simp [progressPercentage, h]
  · simp [progressPercentage]

/-- Witness for C10 at `current = 3`, `total = 4`. -/
theorem c10_witness :
    progressPercentage 3 4 = round ((3 : ℚ) / (4 : ℚ) * 100) ∧
    progressPercentage 3 0 = 0 :=
  c10_progress_percentage_guarded 3 4 (by decide)

end LegalDoc
